import Mathlib

/-!
# Korone Down Meter — verification of the probing/counting core

Shallow embedding of `script.js`: the transport fallback
(`tryFetch`, `fetchTargetWithFallback`), the per-cycle check (`checkNow`),
the capped history log (`pushHistory`) and the manual increment handler.
Network I/O is abstracted as a function from request URL to an attempt
outcome; `localStorage` is modelled as a typed record of the keys the
script reads and writes.
-/

namespace KoroneDownMeter

/-- `listPrefixOf a b` is true iff `a` is a leading segment of `b`
(executable, kernel-reducible). -/
def listPrefixOf : List Char → List Char → Bool
  | [], _ => true
  | _ :: _, [] => false
  | a :: as, b :: bs => a == b && listPrefixOf as bs

/-- `hasSub needle hay` is true iff `needle` occurs contiguously in `hay`;
this is JS `hay.includes(needle)` at character level. -/
def hasSub (needle : List Char) : List Char → Bool
  | [] => needle.isEmpty
  | c :: rest => listPrefixOf needle (c :: rest) || hasSub needle rest

/-- Substring test, modelling JS `s.includes(sub)`. -/
def strContains (s sub : String) : Bool :=
  hasSub sub.toList s.toList

/-- ASCII lower-casing of one character (the inputs of the script are ASCII, so
this matches JS `toLowerCase` on everything the claims touch). -/
def lowerChar (c : Char) : Char :=
  if 65 ≤ c.toNat ∧ c.toNat ≤ 90 then Char.ofNat (c.toNat + 32) else c

/-- JS `s.toLowerCase()` (ASCII). -/
def lowerStr (s : String) : String :=
  ⟨s.toList.map lowerChar⟩

/-- Whitespace for `trim` (space, tab, newline, carriage return cover every
input the script sees). -/
def isWS (c : Char) : Bool :=
  c == ' ' || c == '\t' || c == '\n' || c == '\r'

/-- Drop leading whitespace. -/
def dropWS : List Char → List Char
  | [] => []
  | c :: rest => if isWS c then dropWS rest else c :: rest

/-- JS `s.trim()`: strip whitespace from both ends. -/
def trimStr (s : String) : String :=
  ⟨(dropWS (dropWS s.toList).reverse).reverse⟩

/-- The `status` field of a fetch result: a numeric HTTP status, or one of
the two string sentinels the script uses (the `error` string from the catch
branch of `tryFetch`, the `all-failed` string from the synthetic exhausted
result). -/
inductive Status where
  | num (n : Nat)
  | error
  | allFailed
deriving DecidableEq, Repr

/-- String rendering of a status, for the places the script interpolates
`res.status` into a message. -/
def Status.toText : Status → String
  | .num n => toString n
  | .error => "error"
  | .allFailed => "all-failed"

/-- Result shape produced by `tryFetch` (script.js lines 129-146).  The
`responseType` and `headers` fields are never read by the fallback,
classification or counting logic and are omitted.  `text = none` models the
absent `text` property of the catch-branch object `{ok:false,
status, error}` with the `error` sentinel status. -/
structure FetchResult where
  ok : Bool
  status : Status
  text : Option String
  error : Option String
deriving DecidableEq, Repr

/-- JS truthiness of `res.text`: falsy when the property is absent and when
it is the empty string. -/
def textTruthy : Option String → Bool
  | none => false
  | some s => if s = "" then false else true

/-- One network attempt, abstracting the browser `fetch`: the request either
completes with a status code and body text, or throws (network failure, CORS
rejection, or the 15-second abort). -/
inductive NetOutcome where
  | completed (status : Nat) (text : String)
  | failed (err : String)

/-- The network capability: what one `fetch(url)` does. -/
abbrev Net := String → NetOutcome

/-- `tryFetch` (script.js lines 129-146).  On completion `resp.ok` is the
fetch API flag `status ∈ [200,299]` and `text` is always a string (the inner
catch turns a body-read failure into the empty string); on a throw the
result carries the `error` sentinel status and the error message, with no
`text` property. -/
def tryFetch (net : Net) (url : String) : FetchResult :=
  match net url with
  | .completed st tx =>
    { ok := decide (200 ≤ st ∧ st ≤ 299), status := .num st, text := some tx, error := none }
  | .failed e => { ok := false, status := .error, text := none, error := some e }

def DEFAULT_PROXY : String := "https://api.allorigins.win/raw?url="

def BUILTIN_PROXIES : List String :=
  ["https://api.allorigins.win/raw?url=",
   "https://cors.bridged.cc/",
   "https://thingproxy.freeboard.io/fetch/"]

/-- One element of the `tried` diagnostic trail.  The script pushes
a record holding only `method := direct` before the direct attempt and one
holding `method, proxy, fetchUrl` before each proxy attempt, and never
assigns a `status` or `error` property to these objects afterwards; reading
`.error` on any trail entry therefore yields `undefined`, modelled as the
`error` field always being `none`. -/
structure TriedEntry where
  method : String
  proxy : Option String := none
  fetchUrl : Option String := none
  error : Option String := none
deriving DecidableEq, Repr

/-- Return value of `fetchTargetWithFallback`. -/
structure FallbackRes where
  result : FetchResult
  probe : String
  tried : List TriedEntry
deriving DecidableEq, Repr

/-- The proxy list built at script.js lines 160-165: the `proxyToUse`
argument first if provided, then the stored user proxy (trimmed, if
non-empty), then each built-in proxy not already present, with
`DEFAULT_PROXY` as a last resort if the list ended up empty. -/
def buildProxies (proxyToUse : Option String) (userProxyRaw : String) : List String :=
  let proxies : List String := match proxyToUse with | some p => [p] | none => []
  let userProxy := trimStr userProxyRaw
  let proxies := if userProxy = "" then proxies else proxies ++ [userProxy]
  let proxies := BUILTIN_PROXIES.foldl (fun acc p => if p ∈ acc then acc else acc ++ [p]) proxies
  if proxies = [] then [DEFAULT_PROXY] else proxies

/-- The synthetic result returned when every transport is exhausted
(script.js line 180). -/
def allFailedRes : FetchResult :=
  { ok := false, status := .allFailed, text := none, error := none }

/-- The proxy loop of `fetchTargetWithFallback` (script.js lines 167-180):
for each proxy in order, build `proxy + encode(target)`, record the attempt,
fetch, and stop at the first result whose `ok` flag is true or whose `text`
is a string; if none qualifies return the synthetic `all-failed` result. -/
def tryProxies (net : Net) (encode : String → String) (targetUrl : String) :
    List String → List TriedEntry → FallbackRes
  | [], tried => { result := allFailedRes, probe := "none", tried := tried }
  | p :: rest, tried =>
    let fetchUrl := p ++ encode targetUrl
    let tried2 := tried ++ [{ method := "proxy", proxy := some p, fetchUrl := some fetchUrl }]
    let r := tryFetch net fetchUrl
    if r.ok || r.text.isSome then
      { result := r, probe := "proxy:" ++ p, tried := tried2 }
    else
      tryProxies net encode targetUrl rest tried2

/-- `fetchTargetWithFallback` (script.js lines 148-181).  `encode` stands
for `encodeURIComponent`.  The direct result is used only
when `direct.ok` is true and `direct.text` is a string; otherwise the proxies are
tried in order. -/
def fetchTargetWithFallback (net : Net) (encode : String → String)
    (targetUrl : String) (proxyToUse : Option String) (userProxyRaw : String) : FallbackRes :=
  let tried : List TriedEntry := [{ method := "direct" }]
  let direct := tryFetch net targetUrl
  if direct.ok && direct.text.isSome then
    { result := direct, probe := "direct", tried := tried }
  else
    tryProxies net encode targetUrl (buildProxies proxyToUse userProxyRaw) tried

/-- One history entry `{t, state, count, probe}` (with the optional `reason`
field the unknown path adds). -/
structure HEntry where
  t : String
  state : String
  count : Nat
  probe : String
  reason : Option String := none
deriving DecidableEq, Repr

/-- `pushHistory` (script.js lines 46-55): append, then
`splice(0, length - 1000)` when the array exceeds 1000 entries. -/
def pushHistory (hist : List HEntry) (entry : HEntry) : List HEntry :=
  let arr := hist ++ [entry]
  if arr.length > 1000 then arr.drop (arr.length - 1000) else arr

/-- The persisted `localStorage` keys the core reads and writes:
`korone_down_count`, `korone_last_state`, `korone_proxy`,
`korone_last_snippet`, `korone_last_checked`, `korone_history_v1`. -/
structure Store where
  count : Nat
  lastState : String
  proxy : String
  snippet : String
  lastChecked : String
  history : List HEntry
deriving DecidableEq, Repr

/-- The classification implicit in the branching of `checkNow` (lines 220-241):
the fetch-error path (`!res.ok && !res.text`) is `unknown`; otherwise
`down` iff the body contains the detection phrase case-insensitively, else
`up`. -/
def classifyRes (res : FetchResult) (phrase : String) : String :=
  if !res.ok && !textTruthy res.text then "unknown"
  else if strContains (lowerStr (res.text.getD "")) (lowerStr phrase) then "down"
  else "up"

/-- The guard on line 190: the regex test `/^https?:\/\//i` on the trimmed
target. -/
def validUrl (s : String) : Bool :=
  listPrefixOf "http://".toList (lowerStr s).toList ||
    listPrefixOf "https://".toList (lowerStr s).toList

/-- The body snippet persisted at lines 201-202:
`res.text ? res.text.slice(0,4000) : (res.error || msg)`. -/
def snippetOf (res : FetchResult) : String :=
  if textTruthy res.text then ⟨(res.text.getD "").toList.take 4000⟩
  else match res.error with
    | some e => if e = "" then "No response (status=" ++ res.status.toText ++ ")" else e
    | none => "No response (status=" ++ res.status.toText ++ ")"

/-- The `reason` recorded on the unknown path (line 225):
`res.error || res.status`. -/
def unknownReason (res : FetchResult) : String :=
  match res.error with
  | some e => if e = "" then res.status.toText else e
  | none => res.status.toText

/-- Outcome of one `checkNow` cycle: the stored state afterwards, the final
status label (`setStatusLabel` state and detail text), and the fallback
resolution if any transport was attempted (`none` when the invalid-URL
guard short-circuited). -/
structure CycleOutcome where
  store : Store
  stateLabel : String
  labelDetail : String
  attempted : Option FallbackRes
deriving DecidableEq, Repr

/-- `checkNow` (script.js lines 184-249).  `probeStart` is `nowISO()` taken
before the fetch, `nowLocal` is the human-readable time stored under
`korone_last_checked`; both are opaque inputs.  The function reads the
previous state, validates the target, resolves the fetch with fallback,
persists snippet and last-checked, then either records an `unknown`
observation (fetch error) or applies the phrase test, edge-triggered
counter increment, and state save, and appends the history point. -/
def checkNow (net : Net) (encode : String → String) (probeStart nowLocal : String)
    (targetRaw phraseRaw : String) (s : Store) : CycleOutcome :=
  let prevState := s.lastState
  let target := trimStr targetRaw
  let phrase := if trimStr phraseRaw = "" then "site is currently down" else trimStr phraseRaw
  if !validUrl target then
    { store := s, stateLabel := "unknown", labelDetail := "Invalid URL", attempted := none }
  else
    let fb := fetchTargetWithFallback net encode target none s.proxy
    let res := fb.result
    let snippet := snippetOf res
    let s1 := { s with snippet := snippet, lastChecked := nowLocal }
    if !res.ok && !textTruthy res.text then
      let count := s1.count
      let hist := pushHistory s1.history
        { t := probeStart, state := "unknown", count := count, probe := fb.probe,
          reason := some (unknownReason res) }
      { store := { s1 with history := hist }, stateLabel := "unknown",
        labelDetail := "Fetch error (" ++ res.status.toText ++ ")", attempted := some fb }
    else
      let found := strContains (lowerStr (res.text.getD "")) (lowerStr phrase)
      let s2 :=
        if found then
          let s2a := if prevState = "down" then s1 else { s1 with count := s1.count + 1 }
          { s2a with lastState := "down" }
        else
          { s1 with lastState := "up" }
      let snippet2 := if snippet = "" then "(empty response)" else snippet
      let s3 := { s2 with snippet := snippet2, lastChecked := nowLocal }
      let countNow := s3.count
      let hist := pushHistory s3.history
        { t := probeStart, state := if found then "down" else "up", count := countNow,
          probe := fb.probe }
      { store := { s3 with history := hist },
        stateLabel := if found then "down" else "up", labelDetail := "",
        attempted := some fb }

/-- The force-increment click handler (script.js lines 265-271): read the
counter, save `cur + 1`, and push a `manual` history entry carrying
`cur + 1`. -/
def forceIncrement (t : String) (s : Store) : Store :=
  let cur := s.count
  { s with
    count := cur + 1,
    history := pushHistory s.history
      { t := t, state := "manual", count := cur + 1, probe := "manual" } }

/-- A baseline store used by the concrete scenarios: counter 0, last state
`up`, empty proxy and history. -/
def s_up : Store :=
  { count := 0, lastState := "up", proxy := "", snippet := "", lastChecked := "", history := [] }

/-!
## Helper lemmas
-/

/-- Every element of `pushHistory h e` is an old element of `h` or the new
entry `e` (the splice only discards elements). -/
lemma mem_pushHistory {h : List HEntry} {e x : HEntry} (hx : x ∈ pushHistory h e) :
    x ∈ h ∨ x = e := by
  simp only [pushHistory] at hx
  have hx2 : x ∈ h ++ [e] := by
    split at hx
    · exact List.drop_subset _ _ hx
    · exact hx
  rcases List.mem_append.1 hx2 with h1 | h1
  · exact Or.inl h1
  · exact Or.inr (List.mem_singleton.1 h1)

/-- A `checkNow` cycle either leaves the history untouched (invalid URL) or
appends exactly one entry whose counter snapshot equals the final stored
counter. -/
lemma checkNow_history_shape (net : Net) (encode : String → String)
    (probeStart nowLocal targetRaw phraseRaw : String) (s : Store) :
    (checkNow net encode probeStart nowLocal targetRaw phraseRaw s).store.history = s.history
    ∨ ∃ e : HEntry,
        (checkNow net encode probeStart nowLocal targetRaw phraseRaw s).store.history
          = pushHistory s.history e
        ∧ e.count = (checkNow net encode probeStart nowLocal targetRaw phraseRaw s).store.count := by
  simp only [checkNow]
  split
  · left; rfl
  · split
    · right; exact ⟨_, rfl, rfl⟩
    · split <;> split <;> (try split) <;> (right; exact ⟨_, rfl, rfl⟩)

/-- When no proxy in the list yields a usable result, the proxy loop returns
the synthetic `all-failed` result with one trail entry appended per proxy. -/
lemma tryProxies_fail (net : Net) (encode : String → String) (t : String) :
    ∀ (ps : List String) (tried : List TriedEntry),
    (∀ p ∈ ps, ((tryFetch net (p ++ encode t)).ok
                || (tryFetch net (p ++ encode t)).text.isSome) = false) →
    tryProxies net encode t ps tried
      = { result := allFailedRes, probe := "none",
          tried := tried ++ ps.map (fun p =>
            { method := "proxy", proxy := some p, fetchUrl := some (p ++ encode t) }) } := by
  intro ps
  induction ps with
  | nil => intro tried _; simp [tryProxies]
  | cons p rest ih =>
    intro tried h
    have hp := h p (List.mem_cons_self p rest)
    have hrest : ∀ q ∈ rest, ((tryFetch net (q ++ encode t)).ok
        || (tryFetch net (q ++ encode t)).text.isSome) = false :=
      fun q hq => h q (List.mem_cons_of_mem p hq)
    simp only [tryProxies, hp, Bool.false_eq_true, if_false]
    rw [ih _ hrest]
    simp

/-!
## Claim theorems
-/

/-- C1: in every probe cycle the persisted down-counter grows by exactly 1
iff the cycle surfaces the `down` classification while the previously
persisted state was not `down` (0 otherwise); the counter never decreases;
and a `down` cycle always persists `down` as the last state, so a contiguous
run of `down` classifications increments the counter at most once. -/
theorem C1_edge_triggered_counter (net : Net) (encode : String → String)
    (probeStart nowLocal targetRaw phraseRaw : String) (s : Store) :
    (checkNow net encode probeStart nowLocal targetRaw phraseRaw s).store.count
      = s.count + (if (checkNow net encode probeStart nowLocal targetRaw phraseRaw s).stateLabel = "down"
                      ∧ s.lastState ≠ "down" then 1 else 0)
    ∧ s.count ≤ (checkNow net encode probeStart nowLocal targetRaw phraseRaw s).store.count
    ∧ ((checkNow net encode probeStart nowLocal targetRaw phraseRaw s).stateLabel = "down" →
        (checkNow net encode probeStart nowLocal targetRaw phraseRaw s).store.lastState = "down") := by
  simp only [checkNow]
  split
  · simp
  · split
    · simp
    · split <;> split <;> (try split) <;> simp_all

/-- C1 witness: a 200 response whose body contains the phrase, with previous
state `up`, classifies `down`, increments the counter to 1 and persists
`down`. -/
theorem C1_witness :
    (checkNow (fun _ => NetOutcome.completed 200 "site is currently down") id "a" "b"
        "http://korone.example/" "" s_up).store.count
      = s_up.count
        + (if (checkNow (fun _ => NetOutcome.completed 200 "site is currently down") id "a" "b"
                "http://korone.example/" "" s_up).stateLabel = "down"
              ∧ s_up.lastState ≠ "down" then 1 else 0)
    ∧ (checkNow (fun _ => NetOutcome.completed 200 "site is currently down") id "a" "b"
        "http://korone.example/" "" s_up).store.lastState = "down" :=
  ⟨(C1_edge_triggered_counter (fun _ => NetOutcome.completed 200 "site is currently down")
      id "a" "b" "http://korone.example/" "" s_up).1,
   (C1_edge_triggered_counter (fun _ => NetOutcome.completed 200 "site is currently down")
      id "a" "b" "http://korone.example/" "" s_up).2.2 (by decide)⟩

/-- C2 counterexample: a probe completing with HTTP status 503 whose body
does not contain the detection phrase is classified `up`, not `down`, and
the counter stays 0 — the classifier never inspects the status code. -/
theorem C2_counterexample :
    (checkNow (fun _ => NetOutcome.completed 503 "oops something broke") id "a" "b"
        "http://korone.example/" "" s_up).stateLabel = "up"
    ∧ (checkNow (fun _ => NetOutcome.completed 503 "oops something broke") id "a" "b"
        "http://korone.example/" "" s_up).store.count = 0
    ∧ (checkNow (fun _ => NetOutcome.completed 503 "oops something broke") id "a" "b"
        "http://korone.example/" "" s_up).store.lastState = "up"
    ∧ classifyRes { ok := false, status := .num 503, text := some "oops something broke",
                    error := none } "site is currently down" = "up" := by
  refine ⟨by decide, by decide, by decide, by decide⟩

/-- C2 amended: the classification is independent of the status field — any
result is classified the same under any status — and a 503 whose body does
contain the phrase, with previous state `up`, yields `down` and increments
the counter by 1. -/
theorem C2_amended_status_ignored :
    (∀ (res : FetchResult) (phrase : String) (st : Status),
      classifyRes { res with status := st } phrase = classifyRes res phrase)
    ∧ (checkNow (fun _ => NetOutcome.completed 503 "site is currently down") id "a" "b"
        "http://korone.example/" "" s_up).store.count = 1
    ∧ (checkNow (fun _ => NetOutcome.completed 503 "site is currently down") id "a" "b"
        "http://korone.example/" "" s_up).store.lastState = "down"
    ∧ (checkNow (fun _ => NetOutcome.completed 503 "site is currently down") id "a" "b"
        "http://korone.example/" "" s_up).stateLabel = "down" := by
  refine ⟨?_, by decide, by decide, by decide⟩
  intro res phrase st
  cases res
  rfl

/-- C3 counterexample: a status-200 body containing the challenge-page text
"Just a moment..." (but not the detection phrase) is classified `up`, not
`down` — there is no challenge-signature check. -/
theorem C3_counterexample :
    (checkNow (fun _ => NetOutcome.completed 200 "Just a moment...") id "a" "b"
        "http://korone.example/" "" s_up).stateLabel = "up"
    ∧ (checkNow (fun _ => NetOutcome.completed 200 "Just a moment...") id "a" "b"
        "http://korone.example/" "" s_up).store.count = 0
    ∧ classifyRes { ok := true, status := .num 200, text := some "Just a moment...",
                    error := none } "site is currently down" = "up" := by
  refine ⟨by decide, by decide, by decide⟩

/-- C3 amended: for a successful (`ok`) result the classification depends
only on whether the body contains the configured phrase case-insensitively;
a "just a moment" body without the phrase is `up`, and with the phrase it is
`down` for the phrase, not for the challenge text. -/
theorem C3_amended_phrase_only :
    (∀ (body phrase : String),
      classifyRes { ok := true, status := .num 200, text := some body, error := none } phrase
        = if strContains (lowerStr body) (lowerStr phrase) then "down" else "up")
    ∧ classifyRes { ok := true, status := .num 200, text := some "Just a moment...",
                    error := none } "site is currently down" = "up"
    ∧ classifyRes { ok := true, status := .num 200,
                    text := some "Just a moment... site is currently down", error := none }
        "site is currently down" = "down" := by
  refine ⟨?_, by decide, by decide⟩
  intro body phrase
  rfl

/-- C4 counterexample: a 403 response with a non-empty body is classified
`up`, not `unknown`, and a 404 whose body happens to contain the phrase is
even classified `down` — 403/404 are not mapped to `unknown`. -/
theorem C4_counterexample :
    (checkNow (fun _ => NetOutcome.completed 403 "Forbidden") id "a" "b"
        "http://korone.example/" "" s_up).stateLabel = "up"
    ∧ classifyRes { ok := false, status := .num 403, text := some "Forbidden",
                    error := none } "site is currently down" = "up"
    ∧ classifyRes { ok := false, status := .num 404,
                    text := some "Not found: site is currently down", error := none }
        "site is currently down" = "down" := by
  refine ⟨by decide, by decide, by decide⟩

/-- C4 amended: a 403/404 (like any non-ok status) is classified `unknown`
only when its body is empty or absent; with a truthy body the phrase rule
decides between `down` and `up`, the status code playing no role. -/
theorem C4_amended_body_decides (n : Nat) (body phrase : String)
    (hb : textTruthy (some body) = true) :
    classifyRes { ok := false, status := .num n, text := some "", error := none } phrase
      = "unknown"
    ∧ classifyRes { ok := false, status := .num n, text := some body, error := none } phrase
        = if strContains (lowerStr body) (lowerStr phrase) then "down" else "up" := by
  constructor
  · rfl
  · simp only [classifyRes, hb, Bool.not_true, Bool.and_false, Bool.false_and, if_neg,
      Bool.not_false]
    rfl

/-- C4 amended witness: instantiated at status 403 with body `Forbidden`. -/
theorem C4_amended_witness :
    classifyRes { ok := false, status := .num 403, text := some "", error := none }
      "site is currently down" = "unknown"
    ∧ classifyRes { ok := false, status := .num 403, text := some "Forbidden", error := none }
        "site is currently down"
        = if strContains (lowerStr "Forbidden") (lowerStr "site is currently down")
          then "down" else "up" :=
  C4_amended_body_decides 403 "Forbidden" "site is currently down" (by decide)

/-- C5 counterexample: with persisted state `down`, a cycle whose
classification is `unknown` (every transport threw) leaves the persisted
last-known-state at `down` — it is not set to `unknown`, the down memory is
not cleared. -/
theorem C5_state_not_cleared_counterexample :
    (checkNow (fun _ => NetOutcome.failed "boom") id "a" "b" "http://korone.example/" ""
      { count := 3, lastState := "down", proxy := "", snippet := "", lastChecked := "",
        history := [] }).store.lastState = "down"
    ∧ (checkNow (fun _ => NetOutcome.failed "boom") id "a" "b" "http://korone.example/" ""
        { count := 3, lastState := "down", proxy := "", snippet := "", lastChecked := "",
          history := [] }).stateLabel = "unknown"
    ∧ ¬ (checkNow (fun _ => NetOutcome.failed "boom") id "a" "b" "http://korone.example/" ""
        { count := 3, lastState := "down", proxy := "", snippet := "", lastChecked := "",
          history := [] }).store.lastState = "unknown" := by
  refine ⟨by decide, by decide, by decide⟩

/-- C5 amended: the persisted last-known-state equals the classification
only for `down` and `up` cycles; a cycle surfacing `unknown` (fetch error or
invalid URL) leaves the previously persisted state unchanged. -/
theorem C5_amended_state_update (net : Net) (encode : String → String)
    (probeStart nowLocal targetRaw phraseRaw : String) (s : Store) :
    (checkNow net encode probeStart nowLocal targetRaw phraseRaw s).store.lastState
      = (if (checkNow net encode probeStart nowLocal targetRaw phraseRaw s).stateLabel = "down"
         then "down"
         else if (checkNow net encode probeStart nowLocal targetRaw phraseRaw s).stateLabel = "up"
         then "up" else s.lastState) := by
  simp only [checkNow]
  split
  · simp
  · split
    · simp
    · split <;> split <;> (try split) <;> simp_all

/-- C6 counterexample: a direct attempt that completed with numeric status
503 and a readable body (usable under the uniform criterion of the claim) is
nevertheless skipped: resolution continues to the first proxy, so the probe
tag is not `direct` and two attempts appear in the trail. -/
theorem C6_counterexample :
    (fetchTargetWithFallback
        (fun u => if u = "http://t" then NetOutcome.completed 503 "busy"
                  else NetOutcome.completed 200 "ok") id "http://t" none "").probe
      = "proxy:https://api.allorigins.win/raw?url="
    ∧ ¬ (fetchTargetWithFallback
        (fun u => if u = "http://t" then NetOutcome.completed 503 "busy"
                  else NetOutcome.completed 200 "ok") id "http://t" none "").probe = "direct"
    ∧ (fetchTargetWithFallback
        (fun u => if u = "http://t" then NetOutcome.completed 503 "busy"
                  else NetOutcome.completed 200 "ok") id "http://t" none "").tried.length = 2
    ∧ (tryFetch (fun u => if u = "http://t" then NetOutcome.completed 503 "busy"
                  else NetOutcome.completed 200 "ok") "http://t").status = Status.num 503
    ∧ (tryFetch (fun u => if u = "http://t" then NetOutcome.completed 503 "busy"
                  else NetOutcome.completed 200 "ok") "http://t").text = some "busy" := by
  refine ⟨by decide, by decide, by decide, by decide, by decide⟩

/-- C6 amended: transports are attempted strictly sequentially — direct
first, then the stored user relay (when set and not a built-in), then the
built-in relays — stopping at the first usable attempt, but the usability
criterion is not uniform: the direct attempt is used iff its success flag is
true and its text is a string, while a relay attempt is used iff its success
flag is true or its text is a string (i.e. whenever it completed). -/
theorem C6_amended_fallback_order :
    (∀ (net : Net) (encode : String → String) (t up : String),
      ((tryFetch net t).ok && (tryFetch net t).text.isSome) = true →
      fetchTargetWithFallback net encode t none up
        = { result := tryFetch net t, probe := "direct", tried := [{ method := "direct" }] })
    ∧ (∀ (net : Net) (encode : String → String) (t up : String),
      ((tryFetch net t).ok && (tryFetch net t).text.isSome) = false →
      fetchTargetWithFallback net encode t none up
        = tryProxies net encode t (buildProxies none up) [{ method := "direct" }])
    ∧ (∀ (net : Net) (encode : String → String) (t p : String) (rest : List String)
        (tried : List TriedEntry),
      ((tryFetch net (p ++ encode t)).ok || (tryFetch net (p ++ encode t)).text.isSome) = true →
      tryProxies net encode t (p :: rest) tried
        = { result := tryFetch net (p ++ encode t), probe := "proxy:" ++ p,
            tried := tried ++ [{ method := "proxy", proxy := some p,
                                 fetchUrl := some (p ++ encode t) }] })
    ∧ (∀ (net : Net) (encode : String → String) (t p : String) (rest : List String)
        (tried : List TriedEntry),
      ((tryFetch net (p ++ encode t)).ok || (tryFetch net (p ++ encode t)).text.isSome) = false →
      tryProxies net encode t (p :: rest) tried
        = tryProxies net encode t rest
            (tried ++ [{ method := "proxy", proxy := some p, fetchUrl := some (p ++ encode t) }]))
    ∧ buildProxies none "" = BUILTIN_PROXIES
    ∧ (∀ up : String, trimStr up ≠ "" → trimStr up ∉ BUILTIN_PROXIES →
        buildProxies none up = trimStr up :: BUILTIN_PROXIES) := by
  refine ⟨?_, ?_, ?_, ?_, by decide, ?_⟩
  · intro net encode t up h
    simp [fetchTargetWithFallback, h]
  · intro net encode t up h
    simp [fetchTargetWithFallback, h]
  · intro net encode t p rest tried h
    simp [tryProxies, h]
  · intro net encode t p rest tried h
    simp [tryProxies, h]
  · intro up h1 h2
    simp only [BUILTIN_PROXIES, List.mem_cons, List.mem_singleton, not_or] at h2
    obtain ⟨ha, hb, hc, -⟩ := h2
    have ha2 := Ne.symm ha
    have hb2 := Ne.symm hb
    have hc2 := Ne.symm hc
    simp [buildProxies, h1, BUILTIN_PROXIES, ha2, hb2, hc2]

/-- C6 amended witness: each branch of the fallback order instantiated at a
concrete network. -/
theorem C6_amended_witness :
    fetchTargetWithFallback (fun _ => NetOutcome.completed 200 "hi") id "http://t" none ""
      = { result := tryFetch (fun _ => NetOutcome.completed 200 "hi") "http://t",
          probe := "direct", tried := [{ method := "direct" }] }
    ∧ fetchTargetWithFallback (fun _ => NetOutcome.failed "x") id "http://t" none ""
      = tryProxies (fun _ => NetOutcome.failed "x") id "http://t" (buildProxies none "")
          [{ method := "direct" }]
    ∧ tryProxies (fun _ => NetOutcome.completed 404 "b") id "http://t" ["P/"] []
      = { result := tryFetch (fun _ => NetOutcome.completed 404 "b") ("P/" ++ id "http://t"),
          probe := "proxy:" ++ "P/",
          tried := [{ method := "proxy", proxy := some "P/",
                      fetchUrl := some ("P/" ++ id "http://t") }] }
    ∧ tryProxies (fun _ => NetOutcome.failed "x") id "http://t" ["P/"] []
      = tryProxies (fun _ => NetOutcome.failed "x") id "http://t" []
          [{ method := "proxy", proxy := some "P/", fetchUrl := some ("P/" ++ id "http://t") }]
    ∧ buildProxies none " https://my.example/ "
      = trimStr " https://my.example/ " :: BUILTIN_PROXIES :=
  ⟨C6_amended_fallback_order.1 _ id _ _ (by decide),
   C6_amended_fallback_order.2.1 _ id _ _ (by decide),
   C6_amended_fallback_order.2.2.1 _ id _ "P/" [] [] (by decide),
   C6_amended_fallback_order.2.2.2.1 _ id _ "P/" [] [] (by decide),
   C6_amended_fallback_order.2.2.2.2.2 _ (by decide) (by decide)⟩

/-- C7 counterexample: when every transport throws, the resolver does return
the `all-failed` result with one trail entry per attempted transport (4 here:
direct plus three built-ins), but no trail entry carries the error detail —
each entry records `error = none` even though every attempt failed with the
error message `boom`. -/
theorem C7_counterexample :
    (fetchTargetWithFallback (fun _ => NetOutcome.failed "boom") id "http://t" none "").result
      = allFailedRes
    ∧ (fetchTargetWithFallback (fun _ => NetOutcome.failed "boom") id "http://t" none "").probe
      = "none"
    ∧ (fetchTargetWithFallback (fun _ => NetOutcome.failed "boom") id "http://t" none
        "").tried.length = 4
    ∧ (tryFetch (fun _ => NetOutcome.failed "boom") "http://t").error = some "boom"
    ∧ (fetchTargetWithFallback (fun _ => NetOutcome.failed "boom") id "http://t" none
        "").tried.all (fun e => e.error == none) = true
    ∧ (fetchTargetWithFallback (fun _ => NetOutcome.failed "boom") id "http://t" none
        "").tried.all (fun e => e.error == some "boom") = false := by
  refine ⟨by decide, by decide, by decide, by decide, by decide, by decide⟩

/-- C7 amended: when the direct attempt and every proxy are unusable, the
cycle records the synthetic `all-failed` result, surfaces `unknown`, leaves
the counter unchanged, and the trail holds exactly one entry per attempted
transport (identity and request URL) with no error detail on any entry. -/
theorem C7_all_failed (net : Net) (encode : String → String)
    (probeStart nowLocal targetRaw phraseRaw : String) (s : Store)
    (hv : validUrl (trimStr targetRaw) = true)
    (hd : ((tryFetch net (trimStr targetRaw)).ok
            && (tryFetch net (trimStr targetRaw)).text.isSome) = false)
    (hp : ∀ p ∈ buildProxies none s.proxy,
      ((tryFetch net (p ++ encode (trimStr targetRaw))).ok
        || (tryFetch net (p ++ encode (trimStr targetRaw))).text.isSome) = false) :
    (checkNow net encode probeStart nowLocal targetRaw phraseRaw s).attempted
      = some { result := allFailedRes, probe := "none",
               tried := { method := "direct" } :: (buildProxies none s.proxy).map (fun p =>
                 { method := "proxy", proxy := some p,
                   fetchUrl := some (p ++ encode (trimStr targetRaw)) }) }
    ∧ (checkNow net encode probeStart nowLocal targetRaw phraseRaw s).stateLabel = "unknown"
    ∧ (checkNow net encode probeStart nowLocal targetRaw phraseRaw s).store.count = s.count
    ∧ (∀ x ∈ ({ method := "direct" } :: (buildProxies none s.proxy).map (fun p =>
          ({ method := "proxy", proxy := some p,
             fetchUrl := some (p ++ encode (trimStr targetRaw)) } : TriedEntry))),
        (x : TriedEntry).error = none) := by
  have hfb : fetchTargetWithFallback net encode (trimStr targetRaw) none s.proxy
      = { result := allFailedRes, probe := "none",
          tried := { method := "direct" } :: (buildProxies none s.proxy).map (fun p =>
            { method := "proxy", proxy := some p,
              fetchUrl := some (p ++ encode (trimStr targetRaw)) }) } := by
    simp only [fetchTargetWithFallback, hd, Bool.false_eq_true, if_false]
    rw [tryProxies_fail net encode _ _ _ hp]
    simp
  refine ⟨?_, ?_, ?_, ?_⟩
  · simp only [checkNow, hv, Bool.not_true, Bool.false_eq_true, if_false, hfb]
    simp [allFailedRes, textTruthy]
  · simp only [checkNow, hv, Bool.not_true, Bool.false_eq_true, if_false, hfb]
    simp [allFailedRes, textTruthy]
  · simp only [checkNow, hv, Bool.not_true, Bool.false_eq_true, if_false, hfb]
    simp [allFailedRes, textTruthy]
  · intro x hx
    rcases List.mem_cons.1 hx with h | h
    · rw [h]
    · rcases List.mem_map.1 h with ⟨p, _, hpx⟩
      rw [← hpx]

/-- C7 witness: every transport throwing at a concrete target yields the
`unknown` label with the counter unchanged. -/
theorem C7_witness :
    (checkNow (fun _ => NetOutcome.failed "boom") id "a" "b" "http://korone.example/" ""
        s_up).stateLabel = "unknown"
    ∧ (checkNow (fun _ => NetOutcome.failed "boom") id "a" "b" "http://korone.example/" ""
        s_up).store.count = s_up.count :=
  ⟨(C7_all_failed (fun _ => NetOutcome.failed "boom") id "a" "b" "http://korone.example/" ""
      s_up (by decide) (by decide) (by decide)).2.1,
   (C7_all_failed (fun _ => NetOutcome.failed "boom") id "a" "b" "http://korone.example/" ""
      s_up (by decide) (by decide) (by decide)).2.2.1⟩

/-- C8: when the trimmed target does not match `http(s)://`, the cycle
short-circuits before any transport attempt (`attempted = none`), surfaces
`unknown` with the `Invalid URL` detail, and the store — counter, state and
history included — is returned unchanged. -/
theorem C8_invalid_url_short_circuit (net : Net) (encode : String → String)
    (probeStart nowLocal targetRaw phraseRaw : String) (s : Store)
    (hv : validUrl (trimStr targetRaw) = false) :
    checkNow net encode probeStart nowLocal targetRaw phraseRaw s =
      { store := s, stateLabel := "unknown", labelDetail := "Invalid URL", attempted := none } := by
  simp only [checkNow, hv, Bool.not_false, if_pos]

/-- C8 witness: a schemeless target short-circuits with the store intact. -/
theorem C8_witness :
    validUrl (trimStr "korone.example") = false
    ∧ checkNow (fun _ => NetOutcome.completed 200 "hi") id "a" "b" "korone.example" ""
        { count := 7, lastState := "down", proxy := "", snippet := "x", lastChecked := "y",
          history := [] } =
      { store := { count := 7, lastState := "down", proxy := "", snippet := "x",
                   lastChecked := "y", history := [] },
        stateLabel := "unknown", labelDetail := "Invalid URL", attempted := none } :=
  ⟨by decide,
   C8_invalid_url_short_circuit (fun _ => NetOutcome.completed 200 "hi") id "a" "b"
     "korone.example" "" _ (by decide)⟩

/-- C9: after any append the history log holds at most 1000 entries — its
length is exactly `min (old + 1) 1000` — and the log equals the appended
list with precisely the excess oldest (front) entries dropped, so eviction
is oldest-first and the order of the survivors is preserved. -/
theorem C9_history_cap (hist : List HEntry) (entry : HEntry) :
    (pushHistory hist entry).length ≤ 1000
    ∧ (pushHistory hist entry).length = min (hist.length + 1) 1000
    ∧ pushHistory hist entry = (hist ++ [entry]).drop (hist.length + 1 - 1000) := by
  simp only [pushHistory]
  have hlen : (hist ++ [entry]).length = hist.length + 1 := by simp
  split
  · next hgt =>
    rw [hlen] at hgt ⊢
    refine ⟨?_, ?_, rfl⟩
    · rw [List.length_drop, hlen]; omega
    · rw [List.length_drop, hlen]; omega
  · next hle =>
    rw [hlen] at hle
    have h0 : hist.length + 1 - 1000 = 0 := by omega
    refine ⟨?_, ?_, ?_⟩
    · rw [hlen]; omega
    · rw [hlen]; omega
    · rw [h0, List.drop_zero]

/-- C10: every history entry produced by a probe cycle (error path or
up/down path) or by the manual force-increment carries a counter snapshot
equal to the persisted down-counter after that operation — which is the
value at the moment of the append, since both paths write the counter
before pushing and never after. -/
theorem C10_history_counter_consistent :
    (∀ (net : Net) (encode : String → String) (probeStart nowLocal targetRaw phraseRaw : String)
       (s : Store) (x : HEntry),
       x ∈ (checkNow net encode probeStart nowLocal targetRaw phraseRaw s).store.history →
       x ∈ s.history ∨ x.count = (checkNow net encode probeStart nowLocal targetRaw phraseRaw s).store.count)
    ∧ (∀ (t : String) (s : Store) (x : HEntry),
       x ∈ (forceIncrement t s).history →
       x ∈ s.history ∨ x.count = (forceIncrement t s).count) := by
  constructor
  · intro net encode probeStart nowLocal targetRaw phraseRaw s x hx
    rcases checkNow_history_shape net encode probeStart nowLocal targetRaw phraseRaw s with
      hh | ⟨e, hh, hc⟩
    · rw [hh] at hx; exact Or.inl hx
    · rw [hh] at hx
      rcases mem_pushHistory hx with h | h
      · exact Or.inl h
      · right; rw [h]; exact hc
  · intro t s x hx
    simp only [forceIncrement] at hx ⊢
    rcases mem_pushHistory hx with h | h
    · exact Or.inl h
    · right; rw [h]

/-- C10 witness: the single entry appended by an all-failed cycle snapshots
count 0, and the entry appended by a manual increment snapshots count 1. -/
theorem C10_witness :
    ((⟨"a", "unknown", 0, "none", some "all-failed"⟩ : HEntry)
        ∈ ({ count := 0, lastState := "up", proxy := "", snippet := "", lastChecked := "",
             history := [] } : Store).history
      ∨ (⟨"a", "unknown", 0, "none", some "all-failed"⟩ : HEntry).count
          = (checkNow (fun _ => NetOutcome.failed "boom") id "a" "b" "http://korone.example/" ""
              { count := 0, lastState := "up", proxy := "", snippet := "", lastChecked := "",
                history := [] }).store.count)
    ∧ ((⟨"m", "manual", 1, "manual", none⟩ : HEntry)
        ∈ ({ count := 0, lastState := "up", proxy := "", snippet := "", lastChecked := "",
             history := [] } : Store).history
      ∨ (⟨"m", "manual", 1, "manual", none⟩ : HEntry).count
          = (forceIncrement "m"
              { count := 0, lastState := "up", proxy := "", snippet := "", lastChecked := "",
                history := [] }).count) :=
  ⟨C10_history_counter_consistent.1 (fun _ => NetOutcome.failed "boom") id "a" "b"
      "http://korone.example/" "" _ _ (by decide),
   C10_history_counter_consistent.2 "m" _ _ (by decide)⟩

end KoroneDownMeter
